import Mathlib

/-!
Shallow embedding of `src/bot.py`, a Discord bot that drives Docker
container lifecycle actions.  Python strings are modelled as Lean
`String`s, subprocess executions as explicit `ProcResult` inputs (a
spawn failure is an `Except.error` around the process call), the process
environment as an association list, and each Python function of the bot
as a pure Lean function of those inputs.  Wall-clock data (the embed
timestamp) and the logging side channel are outside the embedding,
except that `get_containers_full` exposes the error text it logs.
-/

namespace DockerBot

/-- The process environment: an association list from variable names to values. -/
abbrev Env := List (String × String)

/-- Python `os.getenv(key, d)`: look the key up, falling back to the default. -/
def getenv (env : Env) (key d : String) : String :=
  match env.lookup key with
  | some v => v
  | none => d

/-- Python `os.getenv(key)` with no default: `None` when the key is absent. -/
def getenvOpt (env : Env) (key : String) : Option String :=
  env.lookup key

/-- Python `str.strip()`: remove leading and trailing whitespace. -/
def pyStrip (s : String) : String :=
  String.mk (((s.data.dropWhile Char.isWhitespace).reverse.dropWhile Char.isWhitespace).reverse)

/-- Python `str.lower()` (ASCII fragment, which is all the bot compares). -/
def pyLower (s : String) : String :=
  String.mk (s.data.map Char.toLower)

/-- Python `s.startswith(pre)`. -/
def pyStartsWith (s pre : String) : Bool :=
  pre.data.isPrefixOf s.data

/-- Membership of `n` as a contiguous run inside `h`, Python's `n in h` on strings. -/
def strContains (n : List Char) : List Char → Bool
  | [] => n.isEmpty
  | h :: t => n.isPrefixOf (h :: t) || strContains n t

/-- Python `needle in haystack` for strings. -/
def pyInStr (needle haystack : String) : Bool :=
  strContains needle.data haystack.data

/-- Python truthiness of an optional string: `None` and `""` are falsy. -/
def pyTruthy : Option String → Bool
  | none => false
  | some s => !s.isEmpty

/-- Python `str(x)` on an optional string: `None` prints as `"None"`. -/
def pyStr : Option String → String
  | none => "None"
  | some s => s

/-- Python `x or d` on an optional string (falsy values fall through to `d`). -/
def pyOrElse (x : Option String) (d : String) : String :=
  match x with
  | some s => if s.isEmpty then d else s
  | none => d

/-- Python `str.capitalize()`: first character upper-cased, the rest lower-cased. -/
def pyCapitalize (s : String) : String :=
  match s.data with
  | [] => ""
  | c :: cs => String.mk (c.toUpper :: cs.map Char.toLower)

/-- Characters of the line up to (excluding) the first occurrence of `c`. -/
def takeUntilChar (c : Char) : List Char → List Char
  | [] => []
  | x :: xs => if x = c then [] else x :: takeUntilChar c xs

/-- Characters of the line strictly after the first occurrence of `c`.
Together with `takeUntilChar` this is Python `line.split(c, 1)`. -/
def dropThroughChar (c : Char) : List Char → List Char
  | [] => []
  | x :: xs => if x = c then xs else dropThroughChar c xs

/-- Python `str.splitlines()` on the line boundaries the bot can see
(`\n`, `\r`, `\r\n`); no entry is produced for a trailing terminator. -/
def splitlinesAux (acc : List Char) : List Char → List String
  | [] => if acc.isEmpty then [] else [String.mk acc.reverse]
  | '\r' :: '\n' :: rest => String.mk acc.reverse :: splitlinesAux [] rest
  | '\n' :: rest => String.mk acc.reverse :: splitlinesAux [] rest
  | '\r' :: rest => String.mk acc.reverse :: splitlinesAux [] rest
  | c :: rest => splitlinesAux (c :: acc) rest

/-- Python `str.splitlines()`. -/
def splitlines (s : String) : List String :=
  splitlinesAux [] s.data

/-- One character class of a glob pattern: does `x` belong to the listed
characters and ranges? -/
def classMatch : List Char → Char → Bool
  | [], _ => false
  | a :: '-' :: b :: rest, x => (a ≤ x && x ≤ b) || classMatch rest x
  | a :: rest, x => (x == a) || classMatch rest x

/-- Scan the tail of a `[...]` class for the closing bracket, returning the
class body and the remainder of the pattern; `none` when unterminated. -/
def scanClass (acc : List Char) : List Char → Option (List Char × List Char)
  | [] => none
  | ']' :: rest => some (acc.reverse, rest)
  | c :: rest => scanClass (c :: acc) rest

/-- Parse a glob character class after the opening `[`: optional `!`
negation, a `]` in first position is a literal member, unterminated
classes fail (and the `[` is then matched literally, as in `fnmatch`). -/
def splitClass (l : List Char) : Option (Bool × List Char × List Char) :=
  match l with
  | '!' :: ']' :: t => (scanClass [']'] t).map (fun pr => (true, pr.1, pr.2))
  | '!' :: t => (scanClass [] t).map (fun pr => (true, pr.1, pr.2))
  | ']' :: t => (scanClass [']'] t).map (fun pr => (false, pr.1, pr.2))
  | t => (scanClass [] t).map (fun pr => (false, pr.1, pr.2))

/-- Fuelled matcher behind `fnmatch`: `*` matches any run, `?` any single
character, `[...]` a character class; any other character matches itself.
The whole name must be consumed.  Every recursive call shrinks
`pattern.length + s.length`, so the fuel supplied by `fnmatch` is never
exhausted. -/
def globMatchAux : Nat → List Char → List Char → Bool
  | 0, _, _ => false
  | _ + 1, [], s => s.isEmpty
  | fuel + 1, '*' :: ps, s =>
    globMatchAux fuel ps s ||
      (match s with
       | [] => false
       | _ :: s2 => globMatchAux fuel ('*' :: ps) s2)
  | fuel + 1, '?' :: ps, s =>
    (match s with
     | [] => false
     | _ :: s2 => globMatchAux fuel ps s2)
  | fuel + 1, '[' :: ps, s =>
    (match splitClass ps with
     | none =>
       (match s with
        | '[' :: s2 => globMatchAux fuel ps s2
        | _ => false)
     | some (neg, content, rest) =>
       (match s with
        | [] => false
        | x :: s2 => (classMatch content x != neg) && globMatchAux fuel rest s2))
  | fuel + 1, c :: ps, s =>
    (match s with
     | [] => false
     | x :: s2 => x == c && globMatchAux fuel ps s2)

/-- Python `fnmatch.fnmatch(name, pat)` (POSIX `normcase` is the identity). -/
def fnmatch (name pat : String) : Bool :=
  globMatchAux (pat.data.length + name.data.length + 1) pat.data name.data

/-- The observable outcome of one `subprocess.run` call. -/
structure ProcResult where
  returncode : Int
  stdout : String
  stderr : String
deriving DecidableEq

/-- `run_docker_cmd` from `bot.py`: raise `RuntimeError(result.stderr.strip())`
on a non-zero exit code, otherwise return `result.stdout.strip()`. -/
def run_docker_cmd (result : ProcResult) : Except String String :=
  if result.returncode ≠ 0 then
    Except.error (pyStrip result.stderr)
  else
    Except.ok (pyStrip result.stdout)

/-- The `name` half of `name, status = line.split("|", 1)` after `strip()`. -/
def line_name (line : String) : String :=
  pyStrip (String.mk (takeUntilChar '|' line.data))

/-- The `status` half of `name, status = line.split("|", 1)` after `strip()`. -/
def line_status (line : String) : String :=
  pyStrip (String.mk (dropThroughChar '|' line.data))

/-- One line of `docker ps --format` output, as `get_containers` parses it:
lines without a `|` are skipped, the rest are split at the first `|`,
both halves stripped, the stopped filter applied, then the name filter. -/
def parse_line (container_filter : String) (only_stopped : Bool) (line : String) :
    Option (String × String) :=
  if strContains ['|'] line.data then
    if only_stopped && pyStartsWith (pyLower (line_status line)) "up" then
      none
    else
      if (!(container_filter == "")) && (!(container_filter == "*")) then
        if !(fnmatch (line_name line) container_filter) then none
        else some (line_name line, line_status line)
      else
        some (line_name line, line_status line)
  else
    none

/-- The parsing loop of `get_containers` over the whole engine output. -/
def parse_ps_output (container_filter : String) (only_stopped : Bool) (output : String) :
    List (String × String) :=
  (splitlines output).filterMap (parse_line container_filter only_stopped)

/-- `get_containers` from `bot.py`, together with the error text it logs:
the docker listing subprocess is an explicit input (`Except.error` for a
spawn failure that raises before a result exists).  `only_running` only
changes the docker command line upstream, so it is absorbed into the
`docker` input.  Every failure is caught and yields `([], some log)`. -/
def get_containers_full (env : Env) (docker : Except String ProcResult)
    (only_stopped : Bool) : List (String × String) × Option String :=
  let container_filter := pyStrip (getenv env "CONTAINER_FILTER" "")
  match docker with
  | Except.error e => ([], some ("Error fetching containers: " ++ e))
  | Except.ok result =>
    match run_docker_cmd result with
    | Except.error e => ([], some ("Error fetching containers: " ++ e))
    | Except.ok output => (parse_ps_output container_filter only_stopped output, none)

/-- The list `get_containers` returns to its caller. -/
def get_containers (env : Env) (docker : Except String ProcResult)
    (only_stopped : Bool) : List (String × String) :=
  (get_containers_full env docker only_stopped).1

/-- What one call to `call_external_script` does: whether the external
script was invoked at all, and the two optional values scraped from its
combined stdout. -/
structure HookOutcome where
  invoked : Bool
  nbspaces : Option String
  gameline : Option String
deriving DecidableEq

/-- The line scan of `call_external_script`: a line starting with
`WEBHOOK_NBSPS_WRITTEN:` sets the count to the stripped remainder after
the first colon, a line starting with `WEBHOOK_GAME_LINE:` sets the game
line likewise; a later matching line overwrites an earlier one. -/
def parse_hook_line (acc : Option String × Option String) (line : String) :
    Option String × Option String :=
  let nb :=
    if pyStartsWith line "WEBHOOK_NBSPS_WRITTEN:" then
      some (pyStrip (String.mk (dropThroughChar ':' line.data)))
    else acc.1
  let gl :=
    if pyStartsWith line "WEBHOOK_GAME_LINE:" then
      some (pyStrip (String.mk (dropThroughChar ':' line.data)))
    else acc.2
  (nb, gl)

/-- The whole stdout scan of `call_external_script`. -/
def parse_hook_output (out : String) : Option String × Option String :=
  (splitlines out).foldl parse_hook_line (none, none)

/-- `call_external_script` from `bot.py`.  It re-reads `ENABLE_AAF_RENAME`
from the environment at call time; when the toggle is not `"true"` it
returns `(None, None)` without spawning the script.  The script execution
is an explicit input; a spawn failure (`Except.error`) is caught and also
degrades to `(None, None)`. -/
def call_external_script (env : Env) (script : Except String ProcResult) : HookOutcome :=
  if !(pyLower (getenv env "ENABLE_AAF_RENAME" "false") == "true") then
    { invoked := false, nbspaces := none, gameline := none }
  else
    match script with
    | Except.error _ => { invoked := true, nbspaces := none, gameline := none }
    | Except.ok result =>
      let parsed := parse_hook_output result.stdout
      { invoked := true, nbspaces := parsed.1, gameline := parsed.2 }

/-- One field of the webhook embed. -/
structure EmbedField where
  name : String
  value : String
  inline : Bool
deriving DecidableEq

/-- The webhook embed `send_webhook` posts (the wall-clock timestamp is
outside the embedding). -/
structure Embed where
  title : String
  color : Nat
  fields : List EmbedField
  footer : String
deriving DecidableEq

/-- The base color table of `send_webhook` (`colors.get(action, 0x808080)`
is `(action_color action).getD 0x808080`). -/
def action_color (action : String) : Option Nat :=
  if action == "start" then some 0x00FF00
  else if action == "restart" then some 0xFFFF00
  else if action == "stop" then some 0xFF0000
  else none

/-- `send_webhook` from `bot.py`, returning the embed it posts, or `none`
when no (truthy) webhook URL is configured.  `enable_aaf` is the
module-level `ENABLE_AAF` read at startup. -/
def send_webhook (webhook_url : Option String) (hostname : String) (enable_aaf : Bool)
    (user_name : String) (user_id : Nat) (container_name : String) (action : String)
    (nbspaces gameline : Option String) : Option Embed :=
  if !(pyTruthy webhook_url) then
    none
  else
    let color :=
      if action == "restart" && pyTruthy nbspaces && enable_aaf then 0x00FF00
      else (action_color action).getD 0x808080
    let baseFields : List EmbedField :=
      [ { name := "Container", value := "`" ++ container_name ++ "`", inline := true },
        { name := "User", value := user_name ++ " (" ++ toString user_id ++ ")", inline := true },
        { name := "Server Host", value := "`" ++ hostname ++ "`", inline := false } ]
    let fields :=
      if enable_aaf && (pyTruthy nbspaces || pyTruthy gameline) then
        baseFields ++
          [ { name := "Non-breaking Spaces Written", value := pyStr nbspaces, inline := true },
            { name := "Game Name Line", value := pyOrElse gameline "(not found)", inline := false } ]
      else baseFields
    some { title := "Container " ++ pyCapitalize action ++ " Executed",
           color := color, fields := fields, footer := "Docker Discord Bot" }

/-- A Discord role, as far as the bot looks at one. -/
structure Role where
  id : Nat
deriving DecidableEq

/-- The member data `is_authorized` inspects on `interaction.user`. -/
structure GuildUser where
  administrator : Bool
  roles : List Role

/-- `is_authorized` from `bot.py`: an administrator is always allowed,
otherwise the user must hold some role whose id equals `ALLOWED_ROLE`. -/
def is_authorized (allowed_role : Nat) (u : GuildUser) : Bool :=
  if u.administrator then true
  else u.roles.any (fun r => r.id == allowed_role)

/-- The three docker actions the slash commands run. -/
inductive DockerAction
  | start
  | stop
  | restart
deriving DecidableEq

/-- The success follow-up message of each action command. -/
def success_message : DockerAction → String → String
  | DockerAction.start, c => "🟢 Started `" ++ c ++ "` successfully."
  | DockerAction.stop, c => "🔴 Stopped `" ++ c ++ "` successfully."
  | DockerAction.restart, c => "🟡 Restarted `" ++ c ++ "` successfully."

/-- The error follow-up message of each action command (`{e}` is the text
of the caught exception). -/
def error_message : DockerAction → String → String → String
  | DockerAction.start, c, e => "⚠️ Error starting `" ++ c ++ "`: " ++ e
  | DockerAction.stop, c, e => "⚠️ Error stopping `" ++ c ++ "`: " ++ e
  | DockerAction.restart, c, e => "⚠️ Error restarting `" ++ c ++ "`: " ++ e

/-- The follow-up reply a command handler sends after deferring. -/
inductive Reply
  | success : String → Reply
  | failure : String → Reply
deriving DecidableEq

/-- The observable outcome of the try/except body shared by the `start`,
`stop` and `restart` handlers. -/
structure ActionOutcome where
  reply : Reply
  webhookSent : Bool
deriving DecidableEq

/-- The try/except body of the `start`/`stop`/`restart` slash commands
after the docker subprocess ran: on `run_docker_cmd` success the webhook
is sent and a success follow-up is delivered; when `run_docker_cmd`
raises, the except branch sends only the error follow-up. -/
def action_command_handler (a : DockerAction) (container : String)
    (dockerProc : ProcResult) : ActionOutcome :=
  match run_docker_cmd dockerProc with
  | Except.ok _ => { reply := Reply.success (success_message a container), webhookSent := true }
  | Except.error e =>
    { reply := Reply.failure (error_message a container e), webhookSent := false }

/-- One autocomplete choice (`app_commands.Choice`). -/
structure Choice where
  name : String
  value : String
deriving DecidableEq

/-- The shared body of both autocomplete callbacks: keep the containers
whose lower-cased name contains the lower-cased partial input, render
each as `name (status)` with the bare name as value, cap at 25. -/
def autocomplete_choices (containers : List (String × String)) (current : String) :
    List Choice :=
  (containers.filterMap (fun p =>
    if pyInStr (pyLower current) (pyLower p.1) then
      some { name := p.1 ++ " (" ++ p.2 ++ ")", value := p.1 }
    else none)).take 25

/-- `running_container_autocomplete` from `bot.py` (candidates come from
`get_containers(only_running=True)`, whose docker listing is the input). -/
def running_container_autocomplete (env : Env) (docker : Except String ProcResult)
    (current : String) : List Choice :=
  autocomplete_choices (get_containers env docker false) current

/-- `stopped_container_autocomplete` from `bot.py` (candidates come from
`get_containers(only_stopped=True)`). -/
def stopped_container_autocomplete (env : Env) (docker : Except String ProcResult)
    (current : String) : List Choice :=
  autocomplete_choices (get_containers env docker true) current

/-- The embed color as the specification words it: green for start,
yellow for restart, red for stop, gray otherwise, except that a restart
with the toggle on and a (truthy) count turns green.  Stated from the
spec to be compared against `send_webhook`. -/
def claim_color (action : String) (enable_aaf : Bool) (nbspaces : Option String) : Nat :=
  if action == "restart" && enable_aaf && pyTruthy nbspaces then 0x00FF00
  else if action == "start" then 0x00FF00
  else if action == "restart" then 0xFFFF00
  else if action == "stop" then 0xFF0000
  else 0x808080

/-- C1: `is_authorized` returns true iff the user has administrator
privilege or holds a role whose id equals the configured allowed-role
id; in particular it is false when the configured role id is 0 and the
user holds no roles and is not an administrator. -/
theorem C1_is_authorized_iff (allowed_role : Nat) (u : GuildUser) :
    (is_authorized allowed_role u = true ↔
      (u.administrator = true ∨ ∃ r ∈ u.roles, r.id = allowed_role)) ∧
    is_authorized 0 { administrator := false, roles := [] } = false := by
  constructor
  · unfold is_authorized
    by_cases h : u.administrator = true
    · simp [h]
    · simp [h, List.any_eq_true]
  · decide

/-- Concrete instance of `C1_is_authorized_iff`: a non-admin holding the
configured role 5 is authorized. -/
theorem C1_is_authorized_iff_witness :
    is_authorized 5 { administrator := false, roles := [{ id := 5 }] } = true :=
  ((C1_is_authorized_iff 5 { administrator := false, roles := [{ id := 5 }] }).1).mpr
    (Or.inr ⟨{ id := 5 }, by simp, rfl⟩)

/-- C2: for every action and container, a non-zero docker exit makes
`run_docker_cmd` fail with the stripped stderr text, the user's reply is
the error message containing that text, no success reply is produced and
no webhook notification is sent; a zero exit returns the stripped
stdout. -/
theorem C2_perform_action_error (a : DockerAction) (container : String) (res : ProcResult) :
    (res.returncode ≠ 0 →
      run_docker_cmd res = Except.error (pyStrip res.stderr) ∧
      action_command_handler a container res =
        { reply := Reply.failure (error_message a container (pyStrip res.stderr)),
          webhookSent := false } ∧
      (∃ s t : List Char,
        (error_message a container (pyStrip res.stderr)).data =
          s ++ (pyStrip res.stderr).data ++ t)) ∧
    (res.returncode = 0 → run_docker_cmd res = Except.ok (pyStrip res.stdout)) := by
  constructor
  · intro h
    refine ⟨by simp [run_docker_cmd, h], by simp [action_command_handler, run_docker_cmd, h], ?_⟩
    cases a
    · exact ⟨("⚠️ Error starting `" ++ container ++ "`: ").data, [], by
        simp [error_message]⟩
    · exact ⟨("⚠️ Error stopping `" ++ container ++ "`: ").data, [], by
        simp [error_message]⟩
    · exact ⟨("⚠️ Error restarting `" ++ container ++ "`: ").data, [], by
        simp [error_message]⟩
  · intro h
    simp [run_docker_cmd, h]

/-- Concrete instance of `C2_perform_action_error`: a restart whose
docker subprocess exits 1 with stderr `"boom \n"`. -/
theorem C2_perform_action_error_witness :
    run_docker_cmd ⟨1, "", "boom \n"⟩ = Except.error "boom" ∧
    action_command_handler DockerAction.restart "game" ⟨1, "", "boom \n"⟩ =
      { reply := Reply.failure "⚠️ Error restarting `game`: boom", webhookSent := false } ∧
    (∃ s t : List Char,
      ("⚠️ Error restarting `game`: boom").data = s ++ ("boom").data ++ t) :=
  (C2_perform_action_error DockerAction.restart "game" ⟨1, "", "boom \n"⟩).1 (by decide)

/-- C4: on any execution failure of the listing subprocess — spawn
failure or non-zero exit — `get_containers` returns the empty list and
logs the error text, and (being a total function of its inputs) never
propagates an exception. -/
theorem C4_listing_fails_soft (env : Env) (only_stopped : Bool) :
    (∀ e : String,
      get_containers env (Except.error e) only_stopped = [] ∧
      (get_containers_full env (Except.error e) only_stopped).2 =
        some ("Error fetching containers: " ++ e)) ∧
    (∀ res : ProcResult, res.returncode ≠ 0 →
      get_containers env (Except.ok res) only_stopped = [] ∧
      (get_containers_full env (Except.ok res) only_stopped).2 =
        some ("Error fetching containers: " ++ pyStrip res.stderr)) := by
  constructor
  · intro e
    exact ⟨rfl, rfl⟩
  · intro res h
    simp [get_containers, get_containers_full, run_docker_cmd, h]

/-- Concrete instance of `C4_listing_fails_soft`: a spawn failure and an
exit-code-2 failure both yield the empty list and a log line. -/
theorem C4_listing_fails_soft_witness :
    get_containers [] (Except.error "spawn failed") false = [] ∧
    (get_containers_full [] (Except.error "spawn failed") false).2 =
      some "Error fetching containers: spawn failed" ∧
    get_containers [] (Except.ok ⟨2, "", " no such container \n"⟩) false = [] := by
  refine ⟨((C4_listing_fails_soft [] false).1 "spawn failed").1,
          ((C4_listing_fails_soft [] false).1 "spawn failed").2,
          ((C4_listing_fails_soft [] false).2 ⟨2, "", " no such container \n"⟩ (by decide)).1⟩

/-- Per line, the `only_stopped=True` parse is the `only_stopped=False`
parse with records whose status starts with (case-insensitive) `up`
removed. -/
theorem parse_line_true_eq (cf line) :
    parse_line cf true line =
      match parse_line cf false line with
      | none => none
      | some r => if pyStartsWith (pyLower r.2) "up" then none else some r := by
  unfold parse_line
  cases hc : strContains ['|'] line.data <;>
    cases hup : pyStartsWith (pyLower (line_status line)) "up" <;>
    cases hg1 : cf == "" <;>
    cases hg2 : cf == "*" <;>
    cases hf : fnmatch (line_name line) cf <;>
    simp [hc, hup, hg1, hg2, hf]

/-- Lifting of `parse_line_true_eq` over the whole line list. -/
theorem filterMap_parse_true (cf : String) (ls : List String) :
    ls.filterMap (parse_line cf true) =
      (ls.filterMap (parse_line cf false)).filter
        (fun r => !(pyStartsWith (pyLower r.2) "up")) := by
  induction ls with
  | nil => rfl
  | cons l ls ih =>
    have h := parse_line_true_eq cf l
    cases hfl : parse_line cf false l with
    | none =>
      rw [List.filterMap_cons, List.filterMap_cons, hfl]
      rw [hfl] at h
      simp only [h, ih]
    | some r =>
      rw [List.filterMap_cons, List.filterMap_cons, hfl]
      rw [hfl] at h
      by_cases hup : pyStartsWith (pyLower r.2) "up"
      · simp [h, hup, ih, List.filter_cons]
      · simp [h, hup, ih, List.filter_cons]

/-- C3: with `onlyStopped` true, `get_containers` excludes exactly the
records whose status string begins with `up` ignoring case; on the
two-line scenario output only the `db` record survives. -/
theorem C3_only_stopped_excludes_up (env : Env) (out err : String) :
    get_containers env (Except.ok ⟨0, out, err⟩) true =
      (get_containers env (Except.ok ⟨0, out, err⟩) false).filter
        (fun r => !(pyStartsWith (pyLower r.2) "up")) ∧
    get_containers [] (Except.ok ⟨0, "web|Up 3 hours\ndb|Exited (0) 2 hours ago", ""⟩) true =
      [("db", "Exited (0) 2 hours ago")] := by
  constructor
  · have h := filterMap_parse_true (pyStrip (getenv env "CONTAINER_FILTER" ""))
      (splitlines (pyStrip out))
    simpa [get_containers, get_containers_full, run_docker_cmd, parse_ps_output] using h
  · decide

/-- C5: with the feature toggle disabled the hook call returns
`(None, None)` without invoking the script, and a notification built
with the startup toggle off carries exactly the three base fields — no
auxiliary fields — whatever the hook values are. -/
theorem C5_toggle_disabled (env : Env) (script : Except String ProcResult)
    (url : Option String) (hostname user_name : String) (user_id : Nat)
    (container_name action : String) (nbspaces gameline : Option String) :
    (pyLower (getenv env "ENABLE_AAF_RENAME" "false") ≠ "true" →
      call_external_script env script =
        { invoked := false, nbspaces := none, gameline := none }) ∧
    (send_webhook url hostname false user_name user_id container_name action
        nbspaces gameline).map Embed.fields =
      (if pyTruthy url then
        some [ { name := "Container", value := "`" ++ container_name ++ "`", inline := true },
               { name := "User", value := user_name ++ " (" ++ toString user_id ++ ")",
                 inline := true },
               { name := "Server Host", value := "`" ++ hostname ++ "`", inline := false } ]
      else none) := by
  constructor
  · intro h
    simp [call_external_script, h]
  · cases hu : pyTruthy url <;> simp [send_webhook, hu]

/-- Concrete instance of `C5_toggle_disabled`: an empty environment
disables the hook, so the script outcome is ignored. -/
theorem C5_toggle_disabled_witness :
    call_external_script [] (Except.ok ⟨0, "WEBHOOK_NBSPS_WRITTEN:12", ""⟩) =
      { invoked := false, nbspaces := none, gameline := none } :=
  (C5_toggle_disabled [] (Except.ok ⟨0, "WEBHOOK_NBSPS_WRITTEN:12", ""⟩)
      (some "http://w") "host1" "alice" 7 "game" "restart" (some "12") none).1 (by decide)

/-- C6: the embed color is green for start, yellow for restart, red for
stop, gray otherwise, with the restart-plus-toggle-plus-count override to
green (`claim_color`); and on the scenario — toggle on, hook stdout
`WEBHOOK_NBSPS_WRITTEN:12` and `WEBHOOK_GAME_LINE:Map Alpha` — the
restart notification carries the two auxiliary fields valued `12` and
`Map Alpha` and is green. -/
theorem C6_webhook_color_and_fields (url : Option String) (hostname user_name : String)
    (user_id : Nat) (container_name action : String) (enable_aaf : Bool)
    (nbspaces gameline : Option String) :
    (send_webhook url hostname enable_aaf user_name user_id container_name action
        nbspaces gameline).map Embed.color =
      (if pyTruthy url then some (claim_color action enable_aaf nbspaces) else none) ∧
    call_external_script [("ENABLE_AAF_RENAME", "true")]
        (Except.ok ⟨0, "WEBHOOK_NBSPS_WRITTEN:12\nWEBHOOK_GAME_LINE:Map Alpha", ""⟩) =
      { invoked := true, nbspaces := some "12", gameline := some "Map Alpha" } ∧
    send_webhook (some "http://w") "host1" true "alice" 7 "game" "restart"
        (some "12") (some "Map Alpha") =
      some { title := "Container Restart Executed", color := 0x00FF00,
             fields := [ { name := "Container", value := "`game`", inline := true },
                         { name := "User", value := "alice (7)", inline := true },
                         { name := "Server Host", value := "`host1`", inline := false },
                         { name := "Non-breaking Spaces Written", value := "12",
                           inline := true },
                         { name := "Game Name Line", value := "Map Alpha",
                           inline := false } ],
             footer := "Docker Discord Bot" } := by
  refine ⟨?_, by decide, by decide⟩
  cases hu : pyTruthy url
  · simp [send_webhook, hu]
  · cases hr : action == "restart" <;>
      cases hs : action == "start" <;>
      cases ht : action == "stop" <;>
      cases ha : enable_aaf <;>
      cases hn : pyTruthy nbspaces <;>
      simp_all [send_webhook, claim_color, action_color]

/-- Any record a line parse produces under a non-empty, non-`*` filter
has a name matching the filter. -/
theorem parse_line_mem_fnmatch (cf : String) (os : Bool) (line : String)
    (r : String × String) (hline : parse_line cf os line = some r)
    (h1 : cf ≠ "") (h2 : cf ≠ "*") : fnmatch r.1 cf = true := by
  unfold parse_line at hline
  split at hline
  · split at hline
    · exact absurd hline (by simp)
    · split at hline
      · split at hline
        · exact absurd hline (by simp)
        next hf =>
          have hr2 : (line_name line, line_status line) = r := Option.some.inj hline
          have hf2 : fnmatch (line_name line) cf = true := by
            cases h : fnmatch (line_name line) cf
            · exact absurd (by simp [h]) hf
            · rfl
          rw [← hr2]
          exact hf2
      next hg =>
        exact absurd (by simp [h1, h2] : ((!(cf == "")) && (!(cf == "*"))) = true) hg
  · exact absurd hline (by simp)

/-- A `*` filter parses a line exactly as the empty (no-op) filter does. -/
theorem parse_line_star (os : Bool) (line : String) :
    parse_line "*" os line = parse_line "" os line := by
  unfold parse_line
  simp

/-- C7: under a configured (stripped) filter pattern other than `""` and
`"*"`, every record `get_containers` returns has a name matching the
pattern; and an environment whose pattern strips to the match-all token
`"*"` yields the same records as one whose pattern strips to `""` — the
filter is a no-op. -/
theorem C7_name_filter (env : Env) (docker : Except String ProcResult)
    (only_stopped : Bool) :
    (∀ r ∈ get_containers env docker only_stopped,
      pyStrip (getenv env "CONTAINER_FILTER" "") ≠ "" →
      pyStrip (getenv env "CONTAINER_FILTER" "") ≠ "*" →
      fnmatch r.1 (pyStrip (getenv env "CONTAINER_FILTER" "")) = true) ∧
    (∀ env2 : Env,
      pyStrip (getenv env "CONTAINER_FILTER" "") = "*" →
      pyStrip (getenv env2 "CONTAINER_FILTER" "") = "" →
      get_containers env docker only_stopped = get_containers env2 docker only_stopped) := by
  constructor
  · intro r hr h1 h2
    unfold get_containers get_containers_full at hr
    cases docker with
    | error e => simp at hr
    | ok res =>
      cases hrun : run_docker_cmd res with
      | error e => simp [hrun] at hr
      | ok output =>
        simp only [hrun] at hr
        rcases List.mem_filterMap.mp hr with ⟨line, _, hline⟩
        exact parse_line_mem_fnmatch _ only_stopped line r hline h1 h2
  · intro env2 h1 h2
    unfold get_containers get_containers_full
    cases docker with
    | error e => rfl
    | ok res =>
      cases hrun : run_docker_cmd res with
      | error e => simp [hrun]
      | ok output =>
        simp only [hrun]
        unfold parse_ps_output
        rw [h1, h2]
        have : parse_line "*" only_stopped = parse_line "" only_stopped :=
          funext (fun line => parse_line_star only_stopped line)
        rw [this]

/-- Concrete instance of `C7_name_filter`: with filter `db*`, the `db`
record that survives matches the pattern. -/
theorem C7_name_filter_witness : fnmatch "db" "db*" = true :=
  (C7_name_filter [("CONTAINER_FILTER", "db*")]
      (Except.ok ⟨0, "web|Up 3 hours\ndb|Exited (0) 2 hours ago", ""⟩) false).1
    ("db", "Exited (0) 2 hours ago") (by decide) (by decide) (by decide)

/-- The empty string occurs in every string (Python `"" in s`). -/
theorem strContains_nil (h : List Char) : strContains [] h = true := by
  cases h <;> simp [strContains, List.isPrefixOf]

/-- The shared autocomplete body returns at most 25 choices, each of
whose values contains the lower-cased query. -/
theorem autocomplete_choices_spec (containers : List (String × String)) (current : String) :
    (autocomplete_choices containers current).length ≤ 25 ∧
    ∀ c ∈ autocomplete_choices containers current,
      pyInStr (pyLower current) (pyLower c.value) = true := by
  constructor
  · exact List.length_take_le 25 _
  · intro c hc
    have hc2 := List.take_subset 25 _ hc
    rcases List.mem_filterMap.mp hc2 with ⟨p, _, hp⟩
    by_cases h : pyInStr (pyLower current) (pyLower p.1) = true
    · rw [if_pos h] at hp
      rw [← Option.some.inj hp]
      exact h
    · rw [if_neg h] at hp
      exact absurd hp (by simp)

/-- With an empty query the autocomplete body keeps every candidate
(up to the cap of 25). -/
theorem autocomplete_choices_empty (containers : List (String × String)) :
    autocomplete_choices containers "" =
      (containers.map (fun p =>
        ({ name := p.1 ++ " (" ++ p.2 ++ ")", value := p.1 } : Choice))).take 25 := by
  unfold autocomplete_choices
  congr 1
  induction containers with
  | nil => rfl
  | cons p ps ih =>
    have hp : pyInStr (pyLower "") (pyLower p.1) = true := strContains_nil (pyLower p.1).data
    simp [List.filterMap_cons, hp, ih]

/-- C8: both autocomplete providers return at most 25 entries, every
returned entry's container name (its `value`) lower-cased contains the
lower-cased query, and the empty query keeps every candidate. -/
theorem C8_autocomplete_caps_and_filters (env : Env) (docker : Except String ProcResult)
    (current : String) :
    ((running_container_autocomplete env docker current).length ≤ 25 ∧
      ∀ c ∈ running_container_autocomplete env docker current,
        pyInStr (pyLower current) (pyLower c.value) = true) ∧
    ((stopped_container_autocomplete env docker current).length ≤ 25 ∧
      ∀ c ∈ stopped_container_autocomplete env docker current,
        pyInStr (pyLower current) (pyLower c.value) = true) ∧
    (∀ containers : List (String × String),
      autocomplete_choices containers "" =
        (containers.map (fun p =>
          ({ name := p.1 ++ " (" ++ p.2 ++ ")", value := p.1 } : Choice))).take 25) :=
  ⟨autocomplete_choices_spec _ _, autocomplete_choices_spec _ _,
   fun containers => autocomplete_choices_empty containers⟩

/-- Concrete instance of `C8_autocomplete_caps_and_filters`: the choice
for `db` offered on query `B` has `b` in its lower-cased name. -/
theorem C8_autocomplete_caps_and_filters_witness :
    pyInStr (pyLower "B") (pyLower "db") = true :=
  (C8_autocomplete_caps_and_filters []
      (Except.ok ⟨0, "web|Up 3 hours\ndb|Exited (0) 2 hours ago", ""⟩) "B").2.1.2
    { name := "db (Exited (0) 2 hours ago)", value := "db" } (by decide)

/-- C9 fails on the code: `get_containers` re-reads `CONTAINER_FILTER`
and `call_external_script` re-reads `ENABLE_AAF_RENAME` from the process
environment on every call, so two invocations around an environment
change observe different configuration values and produce different
results on identical subprocess data. -/
theorem C9_config_reread_counterexample :
    (get_containers [("CONTAINER_FILTER", "web*")]
        (Except.ok ⟨0, "web|Up 3 hours\ndb|Exited (0) 2 hours ago", ""⟩) false ≠
      get_containers [("CONTAINER_FILTER", "db*")]
        (Except.ok ⟨0, "web|Up 3 hours\ndb|Exited (0) 2 hours ago", ""⟩) false) ∧
    (call_external_script [("ENABLE_AAF_RENAME", "true")]
        (Except.ok ⟨0, "WEBHOOK_NBSPS_WRITTEN:12", ""⟩) ≠
      call_external_script [] (Except.ok ⟨0, "WEBHOOK_NBSPS_WRITTEN:12", ""⟩)) :=
  ⟨by decide, by decide⟩

/-- C9 amended: `get_containers` depends on the call-time environment
only through `CONTAINER_FILTER`, and `call_external_script` only through
`ENABLE_AAF_RENAME`; two invocations observe the same configuration
exactly when those entries are unchanged between the calls. -/
theorem C9_config_env_dependence (docker : Except String ProcResult) (only_stopped : Bool)
    (script : Except String ProcResult) (env1 env2 : Env) :
    (getenv env1 "CONTAINER_FILTER" "" = getenv env2 "CONTAINER_FILTER" "" →
      get_containers_full env1 docker only_stopped =
        get_containers_full env2 docker only_stopped) ∧
    (getenv env1 "ENABLE_AAF_RENAME" "false" = getenv env2 "ENABLE_AAF_RENAME" "false" →
      call_external_script env1 script = call_external_script env2 script) := by
  constructor
  · intro h
    unfold get_containers_full
    rw [h]
  · intro h
    unfold call_external_script
    rw [h]

/-- Concrete instance of `C9_config_env_dependence`: two environments
agreeing on the relevant keys behave identically. -/
theorem C9_config_env_dependence_witness :
    get_containers_full [("CONTAINER_FILTER", "db*"), ("OTHER", "1")]
        (Except.ok ⟨0, "db|Up 2 hours", ""⟩) false =
      get_containers_full [("CONTAINER_FILTER", "db*")]
        (Except.ok ⟨0, "db|Up 2 hours", ""⟩) false ∧
    call_external_script [("OTHER", "1")] (Except.error "no script") =
      call_external_script [] (Except.error "no script") :=
  ⟨(C9_config_env_dependence (Except.ok ⟨0, "db|Up 2 hours", ""⟩) false
      (Except.error "no script") [("CONTAINER_FILTER", "db*"), ("OTHER", "1")]
      [("CONTAINER_FILTER", "db*")]).1 (by decide),
   (C9_config_env_dependence (Except.ok ⟨0, "db|Up 2 hours", ""⟩) false
      (Except.error "no script") [("OTHER", "1")] []).2 (by decide)⟩

/-- C10: `get_containers` parses the stripped stdout line by line; a line
without the delimiter `|` yields no record, and every returned record is
the pair of the text before the first `|` and the text after it, each
stripped of surrounding whitespace (`line_name`/`line_status`). -/
theorem C10_line_split_and_drop (cf : String) (os : Bool) (out : String)
    (env : Env) (e : String) :
    get_containers env (Except.ok ⟨0, out, e⟩) os =
      parse_ps_output (pyStrip (getenv env "CONTAINER_FILTER" "")) os (pyStrip out) ∧
    (∀ line : String, strContains ['|'] line.data = false → parse_line cf os line = none) ∧
    (∀ r ∈ parse_ps_output cf os out,
      ∃ line ∈ splitlines out, strContains ['|'] line.data = true ∧
        r.1 = line_name line ∧ r.2 = line_status line) := by
  refine ⟨rfl, ?_, ?_⟩
  · intro line h
    unfold parse_line
    rw [h]
    simp
  · intro r hr
    rcases List.mem_filterMap.mp hr with ⟨line, hmem, hline⟩
    have key : strContains ['|'] line.data = true ∧ r = (line_name line, line_status line) := by
      unfold parse_line at hline
      split at hline
      next hc =>
        refine ⟨hc, ?_⟩
        split at hline
        · exact absurd hline (by simp)
        · split at hline
          · split at hline
            · exact absurd hline (by simp)
            · exact (Option.some.inj hline).symm
          · exact (Option.some.inj hline).symm
      next hc => exact absurd hline (by simp)
    exact ⟨line, hmem, key.1, by rw [key.2], by rw [key.2]⟩

/-- Concrete instance of `C10_line_split_and_drop`: a delimiterless line
is dropped, and the scenario's `db` record comes from its own line. -/
theorem C10_line_split_and_drop_witness :
    parse_line "" false "no delimiter here" = none ∧
    (∃ line ∈ splitlines "web|Up 3 hours\ndb|Exited (0) 2 hours ago",
      strContains ['|'] line.data = true ∧
      ("db", "Exited (0) 2 hours ago").1 = line_name line ∧
      ("db", "Exited (0) 2 hours ago").2 = line_status line) :=
  ⟨(C10_line_split_and_drop "" false "x" [] "").2.1 "no delimiter here" (by decide),
   (C10_line_split_and_drop "" false "web|Up 3 hours\ndb|Exited (0) 2 hours ago" [] "").2.2
     ("db", "Exited (0) 2 hours ago") (by decide)⟩

end DockerBot
